import Mathlib

/-!
Verification of the cloud-shader program (src/main.c).

The fragment shader's floating-point arithmetic is modelled over the real
numbers: GLSL `floor`, `fract`, `clamp`, `mix`, `smoothstep` and `sin` become
their exact real counterparts.  The host program's render loop, resource
lifecycle and exit codes are modelled as a computable state/trace semantics
over `ℚ` (the animation scalar) and an event list.
-/

namespace CloudShader

/-! ### GLSL built-in scalar functions, over ℝ -/

/-- GLSL `fract(x) = x - floor(x)`. -/
noncomputable def fract (x : ℝ) : ℝ := x - ⌊x⌋

/-- GLSL `clamp(x, lo, hi) = min(max(x, lo), hi)`. -/
noncomputable def clamp (x lo hi : ℝ) : ℝ := min (max x lo) hi

/-- GLSL `mix(a, b, t) = a*(1-t) + b*t`. -/
noncomputable def glslMix (a b t : ℝ) : ℝ := a * (1 - t) + b * t

/-- GLSL `smoothstep(e0, e1, x)`: clamp `(x-e0)/(e1-e0)` to [0,1] as `t`,
return `t*t*(3-2*t)`. -/
noncomputable def smoothstep (e0 e1 x : ℝ) : ℝ :=
  let t := clamp ((x - e0) / (e1 - e0)) 0 1
  t * t * (3 - 2 * t)

/-! ### The fragment shader (src/main.c lines 47-71) -/

/-- `smooth_noise` from the fragment shader, transcribed line by line:
`i = floor(st)`, `f = smoothstep(vec2(0), vec2(1), fract(st))` (componentwise),
corner hashes `a,b,c,d` via `dot(corner, vec2(1,57)) + 1`, and the nested
`mix(mix(..,..,f.x), mix(..,..,f.x), f.y)` of `fract(sin(h) * 43758.5453)`. -/
noncomputable def smooth_noise (st : ℝ × ℝ) : ℝ :=
  let i : ℝ × ℝ := (⌊st.1⌋, ⌊st.2⌋)
  let f : ℝ × ℝ := (smoothstep 0 1 (fract st.1), smoothstep 0 1 (fract st.2))
  let a := i.1 * 1 + i.2 * 57 + 1
  let b := (i.1 + 1) * 1 + i.2 * 57 + 1
  let c := i.1 * 1 + (i.2 + 1) * 57 + 1
  let d := (i.1 + 1) * 1 + (i.2 + 1) * 57 + 1
  glslMix
    (glslMix (fract (Real.sin a * 43758.5453)) (fract (Real.sin b * 43758.5453)) f.1)
    (glslMix (fract (Real.sin c * 43758.5453)) (fract (Real.sin d * 43758.5453)) f.1)
    f.2

/-- Shader main, first sample point: `st = tex_coord * 5.0; st.x += cloud_shift * 0.15`. -/
noncomputable def stBase (tex : ℝ × ℝ) (cs : ℝ) : ℝ × ℝ :=
  let st : ℝ × ℝ := (tex.1 * 5, tex.2 * 5)
  (st.1 + cs * 0.15, st.2)

/-- Shader main, second sample point: `st * 2.0 - cloud_shift * 0.05`.
GLSL subtracts the scalar from every component of the vector. -/
noncomputable def octave2Arg (tex : ℝ × ℝ) (cs : ℝ) : ℝ × ℝ :=
  let st := stBase tex cs
  (st.1 * 2 - cs * 0.05, st.2 * 2 - cs * 0.05)

/-- Shader main, third sample point: `st * 4.0 - cloud_shift * 0.1`.
GLSL subtracts the scalar from every component of the vector. -/
noncomputable def octave3Arg (tex : ℝ × ℝ) (cs : ℝ) : ℝ × ℝ :=
  let st := stBase tex cs
  (st.1 * 4 - cs * 0.1, st.2 * 4 - cs * 0.1)

/-- Shader main, combined noise:
`n = smooth_noise(st); n1 = smooth_noise(st*2 - cs*0.05) * 0.5;`
`n2 = smooth_noise(st*4 - cs*0.1) * 0.25; n += n1 + n2`. -/
noncomputable def fragNoise (tex : ℝ × ℝ) (cs : ℝ) : ℝ :=
  let n := smooth_noise (stBase tex cs)
  let n1 := smooth_noise (octave2Arg tex cs) * 0.5
  let n2 := smooth_noise (octave3Arg tex cs) * 0.25
  n + n1 + n2

/-- Shader main, final color:
`cloud = smoothstep(0.3, 1.0, n)`, `mix(cloud_color, sky_color, cloud)`
with `sky_color = (0.602, 0.808, 0.980)` and `cloud_color = vec3(0.97)`. -/
noncomputable def frag_color (tex : ℝ × ℝ) (cs : ℝ) : ℝ × ℝ × ℝ :=
  let n := fragNoise tex cs
  let cloud := smoothstep 0.3 1.0 n
  let sky : ℝ × ℝ × ℝ := (0.602, 0.808, 0.980)
  let cloudColor : ℝ × ℝ × ℝ := (0.97, 0.97, 0.97)
  (glslMix cloudColor.1 sky.1 cloud,
   glslMix cloudColor.2.1 sky.2.1 cloud,
   glslMix cloudColor.2.2 sky.2.2 cloud)

/-! ### Reference definitions taken from the spec's words (for the C2 refinement) -/

/-- Spec-side corner hash: `fract(sin(dot(corner,(1,57)) + 1) * 43758.5453)`. -/
noncomputable def cornerHash (c : ℝ × ℝ) : ℝ :=
  fract (Real.sin (c.1 * 1 + c.2 * 57 + 1) * 43758.5453)

/-- Spec-side bilinear interpolation of four corner values by fractions `f`. -/
noncomputable def bilinear (v00 v10 v01 v11 : ℝ) (f : ℝ × ℝ) : ℝ :=
  (1 - f.2) * ((1 - f.1) * v00 + f.1 * v10) + f.2 * ((1 - f.1) * v01 + f.1 * v11)

/-- Spec-side noise: hash the four lattice corners of the cell `i = floor(st)`
and bilinearly interpolate with `f = smoothstep(0,1,fract(st))`. -/
noncomputable def noiseSpec (st : ℝ × ℝ) : ℝ :=
  let i : ℝ × ℝ := (⌊st.1⌋, ⌊st.2⌋)
  let f : ℝ × ℝ := (smoothstep 0 1 (fract st.1), smoothstep 0 1 (fract st.2))
  bilinear (cornerHash i) (cornerHash (i.1 + 1, i.2)) (cornerHash (i.1, i.2 + 1))
    (cornerHash (i.1 + 1, i.2 + 1)) f

/-! ### Host-program model (src/main.c lines 89-221)

The GL/GLFW calls that matter to the claims are recorded as events on a trace;
the animation scalar is modelled over `ℚ` (the C code's `float` arithmetic is
idealised as exact). -/

/-- Observable GL/GLFW calls of the host program, in the order they occur. -/
inductive GLEvent where
  | attachShader
  | linkProgram
  | deleteShader
  | genVertexArrays
  | genBuffers
  | bindVertexArray
  | bindBuffer
  | bufferUpload
  | vertexAttribSetup
  | unbindBuffer
  | unbindVertexArray
  | clear
  | useProgram
  | uniformUpload (v : ℚ)
  | drawArrays (first count : ℕ)
  | swapBuffers
  | pollEvents
  | deleteVertexArrays
  | deleteBuffers
  | deleteProgram
  | glfwTerminate
  deriving DecidableEq, Repr

/-- External outcomes the program depends on: which initialization and
shader-pipeline steps succeed, the driver's diagnostic logs, and how many
loop iterations run before the window-close request is observed. -/
structure Env where
  glfwInitOk : Bool
  windowOk : Bool
  glewOk : Bool
  vertexCompileOk : Bool
  fragmentCompileOk : Bool
  linkOk : Bool
  vertexLog : String
  fragmentLog : String
  linkLog : String
  frames : ℕ

/-- `compile_shader` (src/main.c lines 101-116): given the driver-assigned
shader handle and the compile outcome, on failure print the info log to
standard error and return 0; on success return the handle.  The pair is
(returned handle, stderr lines printed). -/
def compile_shader (handle : ℕ) (ok : Bool) (infoLog : String) : ℕ × List String :=
  if ok then (handle, [])
  else (0, ["Error compiling shader: " ++ infoLog ++ "\n"])

/-- One iteration of the render loop body (src/main.c lines 192-213):
clear, use program, increment `cloud_shift` by 0.02 and upload it, bind the
VAO, draw 6 vertices, unbind, swap, poll.  Returns the new scalar and the
events of this frame. -/
def renderFrame (cs : ℚ) : ℚ × List GLEvent :=
  let csNew := cs + 0.02
  (csNew,
   [.clear, .useProgram, .uniformUpload csNew, .bindVertexArray,
    .drawArrays 0 6, .unbindVertexArray, .swapBuffers, .pollEvents])

/-- The render loop run for `n` iterations from scalar `cs`. -/
def renderLoop : ℕ → ℚ → ℚ × List GLEvent
  | 0, cs => (cs, [])
  | n + 1, cs =>
    let step := renderFrame cs
    let rest := renderLoop n step.1
    (rest.1, step.2 ++ rest.2)

/-- The uniform values uploaded along a trace, in order. -/
def uploads (evs : List GLEvent) : List ℚ :=
  evs.filterMap fun e =>
    match e with
    | .uniformUpload v => some v
    | _ => none

/-- Outcome of a program run: process exit code, GL/GLFW event trace, lines
printed to standard error, and the final value of `cloud_shift` (present only
when the loop was reached). -/
structure RunResult where
  exitCode : ℤ
  trace : List GLEvent
  stderrLines : List String
  finalShift : Option ℚ

/-- Setup events after successful initialization (src/main.c lines 139-186):
attach both shaders, link, delete the shader stages, generate VAO/VBO, bind,
upload the static vertex data, configure both attributes, unbind. -/
def setupEvents : List GLEvent :=
  [.attachShader, .attachShader, .linkProgram, .deleteShader, .deleteShader,
   .genVertexArrays, .genBuffers, .bindVertexArray, .bindBuffer, .bufferUpload,
   .vertexAttribSetup, .vertexAttribSetup, .unbindBuffer, .unbindVertexArray]

/-- Shutdown events after the loop exits (src/main.c lines 215-219):
delete the vertex array, then the buffer, then the program, then terminate
the windowing library. -/
def shutdownEvents : List GLEvent :=
  [.deleteVertexArrays, .deleteBuffers, .deleteProgram, .glfwTerminate]

/-- `main` (src/main.c lines 118-221): `glfwInit` failure returns -1;
window-creation failure terminates GLFW and returns -1; GLEW failure prints to
stderr and returns -1.  Otherwise both shaders are compiled (failures print a
log and yield handle 0 but are not fatal), the program is linked (failure
prints a log, not fatal), the quad is uploaded, the loop runs with
`cloud_shift` starting at 0, and shutdown releases the GPU objects and
returns 0. -/
def mainModel (env : Env) : RunResult :=
  if !env.glfwInitOk then ⟨-1, [], [], none⟩
  else if !env.windowOk then ⟨-1, [.glfwTerminate], [], none⟩
  else if !env.glewOk then ⟨-1, [], ["Failed to initialize GLEW\n"], none⟩
  else
    let vertexResult := compile_shader 1 env.vertexCompileOk env.vertexLog
    let fragmentResult := compile_shader 2 env.fragmentCompileOk env.fragmentLog
    let linkErrs :=
      if env.linkOk then []
      else ["Error linking shader program: " ++ env.linkLog ++ "\n"]
    let loopResult := renderLoop env.frames 0
    ⟨0,
     setupEvents ++ loopResult.2 ++ shutdownEvents,
     vertexResult.2 ++ fragmentResult.2 ++ linkErrs,
     some loopResult.1⟩

/-! ### The static vertex array (src/main.c lines 89-98)

The flat float array is grouped per the attribute layout set up at lines
177-182: stride 4 floats, position at offset 0, texture coordinate at
offset 2.  All entries are exactly representable, so `ℚ` is used. -/

/-- One vertex: 2D position and 2D texture coordinate. -/
structure Vertex where
  pos : ℚ × ℚ
  tex : ℚ × ℚ
  deriving DecidableEq, Repr

/-- The six vertices of the full-screen quad, rows of the `vertices` array. -/
def vertices : List Vertex :=
  [⟨(-1, 1), (0, 1)⟩, ⟨(-1, -1), (0, 0)⟩, ⟨(1, -1), (1, 0)⟩,
   ⟨(-1, 1), (0, 1)⟩, ⟨(1, -1), (1, 0)⟩, ⟨(1, 1), (1, 1)⟩]

/-- `p` lies in the (closed) triangle with corners `a`, `b`, `c`:
it is a convex combination of the corners. -/
def inTriangle (a b c p : ℝ × ℝ) : Prop :=
  ∃ u v w : ℝ, 0 ≤ u ∧ 0 ≤ v ∧ 0 ≤ w ∧ u + v + w = 1 ∧
    p.1 = u * a.1 + v * b.1 + w * c.1 ∧ p.2 = u * a.2 + v * b.2 + w * c.2

/-- A run environment in which every external step succeeds and the window
close request arrives after one frame. -/
def envAllOk : Env := ⟨true, true, true, true, true, true, "", "", "", 1⟩

/-- A run environment in which the vertex shader fails to compile but
everything else succeeds. -/
def envCompileFail : Env := ⟨true, true, true, false, true, true, "bad", "", "", 1⟩

/-- A run environment in which `glfwInit` fails. -/
def envGlfwFail : Env := ⟨false, true, true, true, true, true, "", "", "", 0⟩

/-! ### Supporting lemmas -/

lemma fract_nonneg (x : ℝ) : 0 ≤ fract x := by
  rw [fract]
  exact sub_nonneg.mpr (Int.floor_le x)

lemma fract_lt_one (x : ℝ) : fract x < 1 := by
  rw [fract, sub_lt_iff_lt_add]
  have h := Int.lt_floor_add_one x
  linarith

lemma cubic_mem (t : ℝ) (h0 : 0 ≤ t) (h1 : t ≤ 1) :
    0 ≤ t * t * (3 - 2 * t) ∧ t * t * (3 - 2 * t) ≤ 1 := by
  constructor
  · nlinarith
  · nlinarith [mul_nonneg (sq_nonneg (1 - t)) (show (0:ℝ) ≤ 1 + 2 * t by linarith)]

lemma smoothstep_mem (e0 e1 x : ℝ) :
    0 ≤ smoothstep e0 e1 x ∧ smoothstep e0 e1 x ≤ 1 := by
  have h0 : 0 ≤ clamp ((x - e0) / (e1 - e0)) 0 1 := by
    rw [clamp]
    exact le_min (le_max_right _ _) zero_le_one
  have h1 : clamp ((x - e0) / (e1 - e0)) 0 1 ≤ 1 := by
    rw [clamp]
    exact min_le_right _ _
  exact cubic_mem _ h0 h1

lemma glslMix_mem {a b t : ℝ} (ha0 : 0 ≤ a) (ha1 : a ≤ 1) (hb0 : 0 ≤ b)
    (hb1 : b ≤ 1) (ht0 : 0 ≤ t) (ht1 : t ≤ 1) :
    0 ≤ glslMix a b t ∧ glslMix a b t ≤ 1 := by
  rw [glslMix]
  constructor <;> nlinarith

lemma renderLoop_shift (N : ℕ) (cs : ℚ) : (renderLoop N cs).1 = cs + N * 0.02 := by
  induction N generalizing cs with
  | zero => simp [renderLoop]
  | succ n ih =>
    rw [renderLoop]
    show (renderLoop n (cs + 0.02)).1 = _
    rw [ih]
    push_cast
    ring

lemma uploads_renderLoop (N : ℕ) (cs : ℚ) :
    uploads (renderLoop N cs).2
      = (List.range N).map (fun (j : ℕ) => cs + ((j : ℚ) + 1) * 0.02) := by
  induction N generalizing cs with
  | zero => simp [renderLoop, uploads]
  | succ n ih =>
    have hstep : uploads (renderLoop (n + 1) cs).2
        = (cs + 0.02) :: uploads (renderLoop n (cs + 0.02)).2 := by
      rw [renderLoop]
      show uploads ((renderFrame cs).2 ++ (renderLoop n (cs + 0.02)).2) = _
      rw [uploads, List.filterMap_append]
      rfl
    rw [hstep, ih, List.range_succ_eq_map, List.map_cons, List.map_map]
    congr 1
    · norm_num
    · apply List.map_congr_left
      intro j hj
      show cs + 0.02 + ((j : ℚ) + 1) * 0.02 = cs + ((j + 1 : ℕ) + 1 : ℚ) * 0.02
      push_cast
      ring

lemma bufferUpload_not_in_renderLoop (N : ℕ) :
    ∀ cs : ℚ, GLEvent.bufferUpload ∉ (renderLoop N cs).2 := by
  induction N with
  | zero => intro cs; simp [renderLoop]
  | succ n ih =>
    intro cs
    rw [renderLoop]
    show GLEvent.bufferUpload ∉ (renderFrame cs).2 ++ (renderLoop n (cs + 0.02)).2
    rw [List.mem_append]
    rintro (h | h)
    · simp [renderFrame] at h
    · exact ih _ h

lemma mainModel_exitCode (env : Env) :
    (mainModel env).exitCode
      = if env.glfwInitOk && env.windowOk && env.glewOk then 0 else -1 := by
  rcases env with ⟨g, w, e, vc, fc, lk, vl, fl, ll, fr⟩
  cases g <;> cases w <;> cases e <;> simp [mainModel]

lemma triangle_cover (x y : ℝ) (hx1 : -1 ≤ x) (hx2 : x ≤ 1)
    (hy1 : -1 ≤ y) (hy2 : y ≤ 1) :
    inTriangle (-1, 1) (-1, -1) (1, -1) (x, y) ∨
      inTriangle (-1, 1) (1, -1) (1, 1) (x, y) := by
  rcases le_total (x + y) 0 with hd | hd
  · left
    refine ⟨(y + 1) / 2, (-x - y) / 2, (x + 1) / 2,
      by linarith, by linarith, by linarith, by ring, ?_, ?_⟩
    · show x = (y + 1) / 2 * (-1) + (-x - y) / 2 * (-1) + (x + 1) / 2 * 1
      ring
    · show y = (y + 1) / 2 * 1 + (-x - y) / 2 * (-1) + (x + 1) / 2 * (-1)
      ring
  · right
    refine ⟨(1 - x) / 2, (1 - y) / 2, (x + y) / 2,
      by linarith, by linarith, by linarith, by ring, ?_, ?_⟩
    · show x = (1 - x) / 2 * (-1) + (1 - y) / 2 * 1 + (x + y) / 2 * 1
      ring
    · show y = (1 - x) / 2 * 1 + (1 - y) / 2 * (-1) + (x + y) / 2 * 1
      ring

/-! ### Claim theorems -/

/-- Claim C2: for every 2D input `st` the shader's `smooth_noise` equals the
reference definition (floor cell, smoothstepped fraction, the four corner
hashes, bilinear interpolation), and every corner hash lies in [0,1). -/
theorem smooth_noise_matches_reference (st : ℝ × ℝ) (c : ℝ × ℝ) :
    smooth_noise st = noiseSpec st ∧ 0 ≤ cornerHash c ∧ cornerHash c < 1 := by
  refine ⟨?_, fract_nonneg _, fract_lt_one _⟩
  simp only [smooth_noise, noiseSpec, bilinear, cornerHash, glslMix]
  ring

/-- Claim C1 counterexample: the claim says every octave's input coordinate is
offset only along the X axis by the animation scalar.  In the code the second
sample point is `st * 2.0 - cloud_shift * 0.05`, and GLSL subtracts the scalar
from both components, so its Y component does depend on the animation scalar:
at `tex = (0,0)` it is `-0.05` for `cloud_shift = 1` but `0` for
`cloud_shift = 0`. -/
theorem octave2Arg_y_depends_on_shift :
    (octave2Arg (0, 0) 1).2 ≠ (octave2Arg (0, 0) 0).2 := by
  simp only [octave2Arg, stBase]
  norm_num

/-- Claim C1 (amended): the combined noise is the sum of three octaves — base
noise at scale 5 with full weight, noise at scale 10 with weight 0.5, noise at
scale 20 with weight 0.25.  The first octave's input is offset along X only
(rate 0.15); the second and third octaves are offset along X (rates 0.25 and
0.5) and also along Y (rates -0.05 and -0.1), because GLSL subtracts the
animation scalar from both components.  All X rates are distinct. -/
theorem fragNoise_octave_decomposition (tex : ℝ × ℝ) (cs : ℝ) :
    fragNoise tex cs =
      smooth_noise (tex.1 * 5 + cs * 0.15, tex.2 * 5)
        + 0.5 * smooth_noise (tex.1 * 10 + cs * 0.25, tex.2 * 10 - cs * 0.05)
        + 0.25 * smooth_noise (tex.1 * 20 + cs * 0.5, tex.2 * 20 - cs * 0.1)
      ∧ (stBase tex cs).2 = tex.2 * 5
      ∧ (octave2Arg tex cs).2 = tex.2 * 10 - cs * 0.05
      ∧ (octave3Arg tex cs).2 = tex.2 * 20 - cs * 0.1
      ∧ ((0.15 : ℝ) ≠ 0.25 ∧ (0.15 : ℝ) ≠ 0.5 ∧ (0.25 : ℝ) ≠ 0.5) := by
  have h1 : stBase tex cs = (tex.1 * 5 + cs * 0.15, tex.2 * 5) := by
    simp only [stBase]
  have h2 : octave2Arg tex cs = (tex.1 * 10 + cs * 0.25, tex.2 * 10 - cs * 0.05) := by
    simp only [octave2Arg, stBase, Prod.mk.injEq]
    constructor <;> ring
  have h3 : octave3Arg tex cs = (tex.1 * 20 + cs * 0.5, tex.2 * 20 - cs * 0.1) := by
    simp only [octave3Arg, stBase, Prod.mk.injEq]
    constructor <;> ring
  refine ⟨?_, by rw [h1], by rw [h2], by rw [h3], by norm_num, by norm_num, by norm_num⟩
  simp only [fragNoise]
  rw [h1, h2, h3]
  ring

/-- Claim C3: for every texture coordinate and every non-negative animation
scalar, the fragment color's three channels lie in [0,1]: the summed noise is
thresholded with `smoothstep(0.3, 1.0)` and the result blends between the cloud
color (0.97, 0.97, 0.97) and the sky color (0.602, 0.808, 0.980). -/
theorem frag_color_channels_in_unit_range (tex : ℝ × ℝ) (cs : ℝ) (hcs : 0 ≤ cs) :
    (0 ≤ (frag_color tex cs).1 ∧ (frag_color tex cs).1 ≤ 1) ∧
    (0 ≤ (frag_color tex cs).2.1 ∧ (frag_color tex cs).2.1 ≤ 1) ∧
    (0 ≤ (frag_color tex cs).2.2 ∧ (frag_color tex cs).2.2 ≤ 1) := by
  obtain ⟨hc0, hc1⟩ := smoothstep_mem 0.3 1.0 (fragNoise tex cs)
  refine ⟨?_, ?_, ?_⟩
  · exact glslMix_mem (by norm_num) (by norm_num) (by norm_num) (by norm_num) hc0 hc1
  · exact glslMix_mem (by norm_num) (by norm_num) (by norm_num) (by norm_num) hc0 hc1
  · exact glslMix_mem (by norm_num) (by norm_num) (by norm_num) (by norm_num) hc0 hc1

/-- Witness for C3 at texture coordinate (0,0) and animation scalar 0. -/
theorem frag_color_channels_in_unit_range_witness :
    0 ≤ (0 : ℝ) ∧
    ((0 ≤ (frag_color (0, 0) 0).1 ∧ (frag_color (0, 0) 0).1 ≤ 1) ∧
     (0 ≤ (frag_color (0, 0) 0).2.1 ∧ (frag_color (0, 0) 0).2.1 ≤ 1) ∧
     (0 ≤ (frag_color (0, 0) 0).2.2 ∧ (frag_color (0, 0) 0).2.2 ≤ 1)) :=
  ⟨le_refl 0, frag_color_channels_in_unit_range (0, 0) 0 (le_refl 0)⟩

/-- Claim C9: the fragment-stage function is deterministic — identical
`(st, cloudShift)` inputs give identical outputs (it is a pure function of its
inputs with no hidden state). -/
theorem frag_color_deterministic (st1 st2 : ℝ × ℝ) (cs1 cs2 : ℝ)
    (hst : st1 = st2) (hcs : cs1 = cs2) :
    frag_color st1 cs1 = frag_color st2 cs2 := by
  rw [hst, hcs]

/-- Witness for C9 at `(st, cloudShift) = ((0,0), 0)`. -/
theorem frag_color_deterministic_witness :
    ((0, 0) : ℝ × ℝ) = (0, 0) ∧ (0 : ℝ) = 0 ∧
    frag_color (0, 0) 0 = frag_color (0, 0) 0 :=
  ⟨rfl, rfl, frag_color_deterministic (0, 0) (0, 0) 0 0 rfl rfl⟩

/-- Claim C4: the animation scalar starts at 0, is incremented by the fixed
step 0.02 exactly once per frame and is never reset, so after `N` frames it
equals exactly `N * 0.02`; in a full run that reaches the loop, the final
scalar is `frames * 0.02`. -/
theorem cloud_shift_after_n_frames (N : ℕ) (env : Env)
    (h1 : env.glfwInitOk = true) (h2 : env.windowOk = true)
    (h3 : env.glewOk = true) :
    (renderLoop N 0).1 = (N : ℚ) * 0.02 ∧
    (mainModel env).finalShift = some ((env.frames : ℚ) * 0.02) := by
  constructor
  · rw [renderLoop_shift]
    ring
  · simp [mainModel, h1, h2, h3, renderLoop_shift]

/-- Witness for C4 with 3 frames in an all-success environment. -/
theorem cloud_shift_after_n_frames_witness :
    envAllOk.glfwInitOk = true ∧ envAllOk.windowOk = true ∧
    envAllOk.glewOk = true ∧
    ((renderLoop 3 0).1 = (3 : ℚ) * 0.02 ∧
     (mainModel envAllOk).finalShift = some ((envAllOk.frames : ℚ) * 0.02)) :=
  ⟨rfl, rfl, rfl, cloud_shift_after_n_frames 3 envAllOk rfl rfl rfl⟩

/-- Claim C5 counterexample: the claim says the GPU objects are released in
the order buffer, then vertex array, then program.  In the code
(src/main.c lines 216-218) the vertex array is deleted first, then the
buffer, then the program: in a concrete all-success run with zero frames the
shutdown suffix of the trace is `shutdownEvents`, which is not the claimed
order. -/
theorem shutdown_order_counterexample :
    (mainModel ⟨true, true, true, true, true, true, "", "", "", 0⟩).trace
      = setupEvents ++ shutdownEvents ∧
    shutdownEvents ≠
      [GLEvent.deleteBuffers, GLEvent.deleteVertexArrays,
       GLEvent.deleteProgram, GLEvent.glfwTerminate] := by
  constructor
  · decide
  · decide

/-- Claim C5 (amended): on the window-close transition the program releases
the GPU objects in the order vertex array, then buffer, then program, then
the windowing/context resources, and exits with status 0 — regardless of
whether earlier non-fatal shader compile or link errors occurred (the
compile/link success flags of the environment are unconstrained). -/
theorem shutdown_order_and_exit (env : Env) (h1 : env.glfwInitOk = true)
    (h2 : env.windowOk = true) (h3 : env.glewOk = true) :
    (mainModel env).trace
      = setupEvents ++ (renderLoop env.frames 0).2
          ++ [GLEvent.deleteVertexArrays, GLEvent.deleteBuffers,
              GLEvent.deleteProgram, GLEvent.glfwTerminate] ∧
    (mainModel env).exitCode = 0 := by
  constructor <;> simp [mainModel, h1, h2, h3, shutdownEvents]

/-- Witness for C5's amended theorem: a run with a failed vertex-shader
compile still shuts down in order and exits 0. -/
theorem shutdown_order_and_exit_witness :
    envCompileFail.glfwInitOk = true ∧ envCompileFail.windowOk = true ∧
    envCompileFail.glewOk = true ∧
    ((mainModel envCompileFail).trace
        = setupEvents ++ (renderLoop envCompileFail.frames 0).2
            ++ [GLEvent.deleteVertexArrays, GLEvent.deleteBuffers,
                GLEvent.deleteProgram, GLEvent.glfwTerminate] ∧
     (mainModel envCompileFail).exitCode = 0) :=
  ⟨rfl, rfl, rfl, shutdown_order_and_exit envCompileFail rfl rfl rfl⟩

/-- Claim C6 counterexample: the claim says the windowing-initialization
failure path returns exit code 0.  In the code (src/main.c line 121) a failed
`glfwInit` returns -1, which is not 0. -/
theorem exit_code_counterexample :
    (mainModel envGlfwFail).exitCode = -1 ∧ (-1 : ℤ) ≠ 0 := by
  constructor
  · decide
  · decide

/-- Claim C6 (amended): the exit code is 0 exactly when initialization
(GLFW, window creation, GLEW) succeeds and the run reaches graceful shutdown;
each of the three pre-loop failure paths returns -1. -/
theorem mainModel_exit_codes (env : Env) :
    (mainModel env).exitCode
      = if env.glfwInitOk && env.windowOk && env.glewOk then 0 else -1 :=
  mainModel_exitCode env

/-- Claim C7: the shader-compilation helper, on failure, reports the
diagnostic log on standard error and returns the zero/invalid handle; on
success it returns the stage handle; and the failure is not fatal — a run
whose shader compilations may have failed still runs the loop and exits 0. -/
theorem compile_shader_error_handling (handle : ℕ) (infoLog : String)
    (env : Env) (h1 : env.glfwInitOk = true) (h2 : env.windowOk = true)
    (h3 : env.glewOk = true) :
    compile_shader handle false infoLog
        = (0, ["Error compiling shader: " ++ infoLog ++ "\n"]) ∧
    compile_shader handle true infoLog = (handle, []) ∧
    (mainModel env).exitCode = 0 ∧
    (mainModel env).trace
      = setupEvents ++ (renderLoop env.frames 0).2 ++ shutdownEvents := by
  refine ⟨rfl, rfl, ?_, ?_⟩ <;> simp [mainModel, h1, h2, h3]

/-- Witness for C7: handle 7, log "bad", and a run with a failed
vertex-shader compile. -/
theorem compile_shader_error_handling_witness :
    envCompileFail.glfwInitOk = true ∧ envCompileFail.windowOk = true ∧
    envCompileFail.glewOk = true ∧
    (compile_shader 7 false "bad"
        = (0, ["Error compiling shader: " ++ "bad" ++ "\n"]) ∧
     compile_shader 7 true "bad" = (7, []) ∧
     (mainModel envCompileFail).exitCode = 0 ∧
     (mainModel envCompileFail).trace
       = setupEvents ++ (renderLoop envCompileFail.frames 0).2
           ++ shutdownEvents) :=
  ⟨rfl, rfl, rfl, compile_shader_error_handling 7 "bad" envCompileFail rfl rfl rfl⟩

/-- Claim C8: the static vertex array has exactly 6 vertices forming two
triangles whose union is the full clip-space square [-1,1]×[-1,1]; the
texture coordinates are the affine image of the positions onto [0,1]×[0,1]
(each axis traversed exactly once), taking exactly the four unit-square
corners; and the buffer data is uploaded exactly once per run (immutable
after upload). -/
theorem quad_geometry (env : Env) (h1 : env.glfwInitOk = true)
    (h2 : env.windowOk = true) (h3 : env.glewOk = true)
    (x y : ℝ) (hx1 : -1 ≤ x) (hx2 : x ≤ 1) (hy1 : -1 ≤ y) (hy2 : y ≤ 1) :
    vertices.length = 6 ∧
    vertices.map Vertex.pos
      = [(-1, 1), (-1, -1), (1, -1), (-1, 1), (1, -1), (1, 1)] ∧
    vertices.map (fun v => ((v.pos.1 : ℝ), (v.pos.2 : ℝ)))
      = [(-1, 1), (-1, -1), (1, -1), (-1, 1), (1, -1), (1, 1)] ∧
    vertices.map Vertex.tex
      = [(0, 1), (0, 0), (1, 0), (0, 1), (1, 0), (1, 1)] ∧
    vertices.map Vertex.tex
      = vertices.map (fun v => ((v.pos.1 + 1) / 2, (v.pos.2 + 1) / 2)) ∧
    (vertices.map Vertex.tex).toFinset = {(0, 0), (0, 1), (1, 0), (1, 1)} ∧
    (inTriangle (-1, 1) (-1, -1) (1, -1) (x, y) ∨
      inTriangle (-1, 1) (1, -1) (1, 1) (x, y)) ∧
    (mainModel env).trace.count GLEvent.bufferUpload = 1 := by
  have hsetup : setupEvents.count GLEvent.bufferUpload = 1 := by decide
  have hshut : shutdownEvents.count GLEvent.bufferUpload = 0 := by decide
  have hloop : (renderLoop env.frames 0).2.count GLEvent.bufferUpload = 0 :=
    List.count_eq_zero.mpr (bufferUpload_not_in_renderLoop _ _)
  refine ⟨by decide, by decide, ?_, by decide, by norm_num [vertices], by decide,
    triangle_cover x y hx1 hx2 hy1 hy2, ?_⟩
  · norm_num [vertices]
  · simp [mainModel, h1, h2, h3, List.count_append, hsetup, hshut, hloop]

/-- Witness for C8 in the all-success environment, at the square's center. -/
theorem quad_geometry_witness :
    envAllOk.glfwInitOk = true ∧ envAllOk.windowOk = true ∧
    envAllOk.glewOk = true ∧
    (-1 ≤ (0 : ℝ) ∧ (0 : ℝ) ≤ 1) ∧
    (vertices.length = 6 ∧
     vertices.map Vertex.pos
       = [(-1, 1), (-1, -1), (1, -1), (-1, 1), (1, -1), (1, 1)] ∧
     vertices.map (fun v => ((v.pos.1 : ℝ), (v.pos.2 : ℝ)))
       = [(-1, 1), (-1, -1), (1, -1), (-1, 1), (1, -1), (1, 1)] ∧
     vertices.map Vertex.tex
       = [(0, 1), (0, 0), (1, 0), (0, 1), (1, 0), (1, 1)] ∧
     vertices.map Vertex.tex
       = vertices.map (fun v => ((v.pos.1 + 1) / 2, (v.pos.2 + 1) / 2)) ∧
     (vertices.map Vertex.tex).toFinset = {(0, 0), (0, 1), (1, 0), (1, 1)} ∧
     (inTriangle (-1, 1) (-1, -1) (1, -1) (0, 0) ∨
       inTriangle (-1, 1) (1, -1) (1, 1) (0, 0)) ∧
     (mainModel envAllOk).trace.count GLEvent.bufferUpload = 1) :=
  ⟨rfl, rfl, rfl, ⟨by norm_num, by norm_num⟩,
   quad_geometry envAllOk rfl rfl rfl 0 0 (by norm_num) (by norm_num)
     (by norm_num) (by norm_num)⟩

/-- Claim C10: in every loop iteration the scalar is incremented before the
uniform upload, so across `N` frames the uploaded values are exactly
`0.02, 0.04, ..., N*0.02`: the k-th upload (0-indexed) is `(k+1)*0.02`, the
value 0 is never uploaded, and the first uploaded value is 0.02. -/
theorem uniform_upload_values (N k : ℕ) (hk : k < N) :
    uploads (renderLoop N 0).2
        = (List.range N).map (fun (j : ℕ) => ((j : ℚ) + 1) * 0.02) ∧
    (uploads (renderLoop N 0).2)[k]? = some (((k : ℚ) + 1) * 0.02) ∧
    (0 : ℚ) ∉ uploads (renderLoop N 0).2 ∧
    (uploads (renderLoop N 0).2).head? = some 0.02 := by
  have hmap : uploads (renderLoop N 0).2
      = (List.range N).map (fun (j : ℕ) => ((j : ℚ) + 1) * 0.02) := by
    rw [uploads_renderLoop]
    apply List.map_congr_left
    intro j hj
    rw [zero_add]
  refine ⟨hmap, ?_, ?_, ?_⟩
  · rw [hmap, List.getElem?_map, List.getElem?_range hk]
    rfl
  · rw [hmap]
    intro hmem
    obtain ⟨j, hj, hval⟩ := List.mem_map.mp hmem
    have hpos : (0 : ℚ) < ((j : ℚ) + 1) * 0.02 := by positivity
    rw [hval] at hpos
    exact lt_irrefl 0 hpos
  · obtain ⟨m, rfl⟩ : ∃ m, N = m + 1 := ⟨N - 1, by omega⟩
    rw [hmap, List.range_succ_eq_map, List.map_cons, List.head?_cons]
    norm_num

/-- Witness for C10 with 2 frames, inspecting the first upload. -/
theorem uniform_upload_values_witness :
    0 < 2 ∧
    (uploads (renderLoop 2 0).2
        = (List.range 2).map (fun (j : ℕ) => ((j : ℚ) + 1) * 0.02) ∧
     (uploads (renderLoop 2 0).2)[0]? = some ((((0 : ℕ) : ℚ) + 1) * 0.02) ∧
     (0 : ℚ) ∉ uploads (renderLoop 2 0).2 ∧
     (uploads (renderLoop 2 0).2).head? = some 0.02) :=
  ⟨by decide, uniform_upload_values 2 0 (by decide)⟩

end CloudShader
